import Mathlib

/-!
# Root USB hub driver (`root_usb.c`): a shallow embedding

The driver's functions are embedded as pure functions.  Every call into the
kernel that the source makes is recorded as an `Event`, in program order; the
values the kernel hands back (allocation results, transfer results, submit
results) are explicit inputs of the embedded function.

Not modelled: the byte layout of `struct root_usb` (the source allocates it with
`kzalloc(sizeof(ru_handler))`, the size of a pointer; the embedding records that
size in the event and treats the session as a record), and concurrency between
the completion handler and the other entry points.
-/

namespace RootUsb

/-! ## Machine types and kernel constants -/

/-- A byte (`u8`, `unsigned char`). -/
abbrev u8 := Fin 256

/-- Kernel errno `ENOENT` (`asm-generic/errno-base.h`). -/
def ENOENT : Int := 2
/-- Kernel errno `ENOMEM` (`asm-generic/errno-base.h`). -/
def ENOMEM : Int := 12
/-- Kernel errno `ECONNRESET` (`asm-generic/errno.h`). -/
def ECONNRESET : Int := 104
/-- Kernel errno `ESHUTDOWN` (`asm-generic/errno.h`). -/
def ESHUTDOWN : Int := 108

/-- Command id `CMD_ID_START_MEASUREMENTS`, `#define`d as 0x18. -/
def CMD_ID_START_MEASUREMENTS : u8 := 0x18
/-- Command id `CMD_ID_INIT`, `#define`d as 0x1a. -/
def CMD_ID_INIT : u8 := 0x1a

/-- Allocation flags passed to the kernel. -/
inductive gfp_t where
  | GFP_KERNEL
  | GFP_ATOMIC
  deriving DecidableEq, Repr

/-- The heap objects the driver allocates. -/
inductive Obj where
  | ru_handler
  | int_in_buffer
  | int_in_urb
  | pack
  deriving DecidableEq, Repr

/-- A pointer to one of the driver's objects; `none` is `NULL`. -/
abbrev ptr := Option Obj

/-- Diagnostics the driver prints. -/
inductive Diag where
  | mem_exhausted
  | no_buffer
  | no_urb
  | attached
  | detached
  | submit_error_init_dev (ret : Int)
  | submit_error_read_int_callback (ret : Int)
  | urb_shutting_down (status : Int)
  | urb_nonzero_status (status : Int)
  | measurement (counter : u8) (m0_lo m0_hi : u8)
  deriving DecidableEq, Repr

/-- Calls into the kernel, as they appear in the source. -/
inductive Event where
  | kmalloc (size : Nat) (flags : gfp_t) (res : ptr)
  | kzalloc (size : Nat) (flags : gfp_t) (res : ptr)
  | kfree (p : ptr)
  | usb_control_msg (endpoint : Nat) (request requesttype value index : Nat)
      (data : List u8) (size : Nat) (timeout : Nat)
  | usb_get_dev
  | usb_put_dev
  | usb_alloc_urb (iso_packets : Nat) (flags : gfp_t) (res : ptr)
  | usb_fill_int_urb (urb : ptr) (buffer : ptr) (buffer_size : Nat)
  | usb_submit_urb (urb : ptr) (flags : gfp_t)
  | usb_kill_urb (urb : ptr)
  | usb_free_urb (urb : ptr)
  | usb_set_intfdata (data : ptr)
  | device_create_file
  | device_remove_file
  | log (d : Diag)
  deriving DecidableEq, Repr

/-! ## Data model -/

/-- The session, `struct root_usb`.  `usb_dev` is the device handle, `ctx` the
last temperature. -/
structure root_usb where
  usb_dev : Nat
  ctx : Int
  int_in_buffer : ptr
  int_in_urb : ptr
  deriving DecidableEq, Repr

/-- The fields of `struct urb` the completion handler sees.  `transfer_buffer`
holds the contents of the receive buffer (`transfer_buffer_length` bytes),
`actual_length` the number of bytes the transfer delivered. -/
structure urb where
  self : ptr
  context : root_usb
  transfer_buffer : List u8
  actual_length : Nat
  status : Int
  deriving DecidableEq, Repr

/-- The function `le16_to_cpu` on the two bytes of a `__le16` field, low byte first. -/
def le16_to_cpu (lo hi : u8) : Nat := lo.val + 256 * hi.val

/-- Field `measurement->rolling_counter`: byte 1 of the packed
`struct measurement_packet` laid over the buffer. -/
def measurement_packet.rolling_counter (buf : List u8) : Option u8 := buf[1]?

/-- Field `measurement->measurement0`: the `__le16` at bytes 2 and 3 of the packed
`struct measurement_packet` laid over the buffer. -/
def measurement_packet.measurement0 (buf : List u8) : Option (u8 × u8) :=
  match buf[2]?, buf[3]? with
  | some lo, some hi => some (lo, hi)
  | _, _ => none

/-! ## `read_int_callback` -/

/-- The tail of `read_int_callback` after the label `exit`: resubmit the urb and
report a failure of the submission. -/
def read_int_callback_exit (u : urb) (submit_ret : Int) : List Event :=
  Event.usb_submit_urb u.self gfp_t.GFP_ATOMIC ::
    (if submit_ret ≠ 0 then [Event.log (Diag.submit_error_read_int_callback submit_ret)]
     else [])

/-- The completion handler `read_int_callback`.  `submit_ret` is what `usb_submit_urb` returns if it is
called.  The result is the session afterwards and the kernel calls made; `none`
is a read past the end of the receive buffer. -/
def read_int_callback (u : urb) (submit_ret : Int) : Option (root_usb × List Event) :=
  let ru_handler := u.context
  let status := u.status
  if status = 0 then
    match measurement_packet.rolling_counter u.transfer_buffer,
          measurement_packet.measurement0 u.transfer_buffer with
    | some counter, some (lo, hi) =>
      some ({ ru_handler with ctx := (le16_to_cpu lo hi : Int) },
        Event.log (Diag.measurement counter lo hi) :: read_int_callback_exit u submit_ret)
    | _, _ => none
  else if status = -ECONNRESET ∨ status = -ENOENT ∨ status = -ESHUTDOWN then
    some (ru_handler, [Event.log (Diag.urb_shutting_down status)])
  else
    some (ru_handler,
      Event.log (Diag.urb_nonzero_status status) :: read_int_callback_exit u submit_ret)

/-- Number of `usb_submit_urb` calls in a trace. -/
def submit_count (evs : List Event) : Nat :=
  (evs.filter (fun e => match e with
    | Event.usb_submit_urb _ _ => true
    | _ => false)).length

/-! ## `send_cmd` -/

/-- What the kernel hands back during one `send_cmd`: the result of `kmalloc`
(`none` is `NULL`, `some junk` the uninitialised contents of the new block, by
offset) and the return value of `usb_control_msg`. -/
structure cmd_outcome where
  pack_alloc : Option (Nat → u8)
  control_ret : Int

/-- Conversion of an `int` to `size_t` (the usual arithmetic conversion in
`ret == sizeof(pack)`); `size_t` has the width of a pointer. -/
def to_size_t (sizeof_ptr : Nat) (x : Int) : Nat := (x % (2 : Int) ^ (8 * sizeof_ptr)).toNat

/-- The call `memset(p, 0, n)` on the contents of a block. -/
def memset_zero (block : List u8) (n : Nat) : List u8 :=
  List.replicate (min n block.length) (0 : u8) ++ block.drop n

/-- The function `send_cmd`.  `sizeof_ptr` is `sizeof(pack)`: `pack` is a pointer, so this is
the size of a pointer on the target.  Returns the `int` result, the session and
the kernel calls made. -/
def send_cmd (sizeof_ptr : Nat) (ru : root_usb) (cmd : u8) (o : cmd_outcome) :
    Int × root_usb × List Event :=
  match o.pack_alloc with
  | none => (-ENOMEM, ru, [Event.kmalloc sizeof_ptr gfp_t.GFP_KERNEL none])
  | some junk =>
    let block := (List.range sizeof_ptr).map junk
    let zeroed := memset_zero block sizeof_ptr
    let pack := zeroed.set 0 cmd
    let ret := o.control_ret
    let ret := if to_size_t sizeof_ptr ret = sizeof_ptr then 0 else ret
    (ret, ru,
      [Event.kmalloc sizeof_ptr gfp_t.GFP_KERNEL (some Obj.pack),
       Event.usb_control_msg 0 0x09 0x21 0x0200 0x0000 pack sizeof_ptr 10000,
       Event.kfree (some Obj.pack)])

/-- The control transfers in a trace. -/
def control_msgs (evs : List Event) : List Event :=
  evs.filter (fun e => match e with
    | Event.usb_control_msg _ _ _ _ _ _ _ _ => true
    | _ => false)

/-! ## `init_dev` -/

/-- What the kernel hands back during `init_dev`. -/
structure init_outcome where
  init_cmd : cmd_outcome
  submit_ret : Int
  start_cmd : cmd_outcome

/-- The function `init_dev`.  It returns `void`; the result is the session
afterwards and the kernel calls made. -/
def init_dev (sizeof_ptr : Nat) (ru : root_usb) (o : init_outcome) : root_usb × List Event :=
  let r1 := send_cmd sizeof_ptr ru CMD_ID_INIT o.init_cmd
  let ru := r1.2.1
  let ret := o.submit_ret
  let arm := Event.usb_submit_urb ru.int_in_urb gfp_t.GFP_KERNEL ::
    (if ret ≠ 0 then [Event.log (Diag.submit_error_init_dev ret)] else [])
  let r2 := send_cmd sizeof_ptr ru CMD_ID_START_MEASUREMENTS o.start_cmd
  (r2.2.1, r1.2.2 ++ arm ++ r2.2.2)

/-! ## `show_temperature` -/

/-- Decimal digits of `n`, least significant first, as `do { ... } while (n)`
produces them; `fuel` bounds the number of digits. -/
def put_dec : Nat → Nat → List Nat
  | 0, _ => []
  | fuel + 1, n => (n % 10) :: (if n / 10 = 0 then [] else put_dec fuel (n / 10))

/-- The bytes `%d` produces for an `int`: a minus sign for a negative value, then
the decimal digits, most significant first, in ASCII.  (`sprintf` is a kernel
library function, not part of the driver; this follows its documented
behaviour.) -/
def format_d (x : Int) : List Nat :=
  (if x < 0 then [45] else []) ++
    ((put_dec (x.natAbs + 1) x.natAbs).reverse.map (fun d => 48 + d))

/-- The call of `sprintf` on `buf` with the format `%d` and a newline: the bytes stored into `buf` (the text and the
terminating NUL) and the return value (the length of the text). -/
def sprintf_d_nl (x : Int) : List Nat × Int :=
  let text := format_d x ++ [10]
  (text ++ [0], (text.length : Int))

/-- The read callback `show_temperature`: the value returned, the bytes stored into `buf`, and the
session afterwards. -/
def show_temperature (ru_handler : root_usb) : Int × List Nat × root_usb :=
  let r := sprintf_d_nl ru_handler.ctx
  (r.2, r.1, ru_handler)

/-! ## `root_usb_driver_probe` and `root_usb_driver_disconnect` -/

/-- What `root_usb_driver_probe` receives: the device, the endpoint's
`wMaxPacketSize`, and what the kernel hands back along the way. -/
structure probe_input where
  usb_dev : Nat
  wMaxPacketSize : Nat
  kzalloc_ok : Bool
  buffer_ok : Bool
  urb_ok : Bool
  init : init_outcome
  create_file_ret : Int

/-- The code after the label `error` in `root_usb_driver_probe`. -/
def probe_error (ru_handler : root_usb) (ret : Int) : Int × List Event :=
  (ret, [Event.usb_free_urb ru_handler.int_in_urb,
         Event.kfree ru_handler.int_in_buffer,
         Event.kfree (some Obj.ru_handler)])

/-- The attach function `root_usb_driver_probe`: the return value, the interface data left behind
(`none` when `usb_set_intfdata` was not reached) and the kernel calls made. -/
def root_usb_driver_probe (sizeof_ptr : Nat) (i : probe_input) :
    Int × Option root_usb × List Event :=
  let ret := -ENOMEM
  if ¬ i.kzalloc_ok then
    (-ENOMEM, none,
      [Event.kzalloc sizeof_ptr gfp_t.GFP_KERNEL none, Event.log Diag.mem_exhausted])
  else
    let ru_handler : root_usb := { usb_dev := 0, ctx := 0, int_in_buffer := none, int_in_urb := none }
    let t0 := [Event.kzalloc sizeof_ptr gfp_t.GFP_KERNEL (some Obj.ru_handler)]
    let ru_handler := { ru_handler with usb_dev := i.usb_dev }
    let t1 := t0 ++ [Event.usb_get_dev]
    let buffer_size := i.wMaxPacketSize
    if ¬ i.buffer_ok then
      let e := probe_error ru_handler ret
      (e.1, none,
        t1 ++ [Event.kmalloc buffer_size gfp_t.GFP_KERNEL none, Event.log Diag.no_buffer] ++ e.2)
    else
      let ru_handler := { ru_handler with int_in_buffer := some Obj.int_in_buffer }
      let t2 := t1 ++ [Event.kmalloc buffer_size gfp_t.GFP_KERNEL (some Obj.int_in_buffer)]
      if ¬ i.urb_ok then
        let e := probe_error ru_handler ret
        (e.1, none,
          t2 ++ [Event.usb_alloc_urb 0 gfp_t.GFP_KERNEL none, Event.log Diag.no_urb] ++ e.2)
      else
        let ru_handler := { ru_handler with int_in_urb := some Obj.int_in_urb }
        let t3 := t2 ++ [Event.usb_alloc_urb 0 gfp_t.GFP_KERNEL (some Obj.int_in_urb),
          Event.usb_fill_int_urb ru_handler.int_in_urb ru_handler.int_in_buffer buffer_size,
          Event.usb_set_intfdata (some Obj.ru_handler)]
        let r := init_dev sizeof_ptr ru_handler i.init
        let ru_handler := r.1
        let t4 := t3 ++ r.2 ++ [Event.device_create_file]
        let ret := i.create_file_ret
        if ret ≠ 0 then
          let e := probe_error ru_handler ret
          (e.1, some ru_handler, t4 ++ e.2)
        else
          (0, some ru_handler, t4 ++ [Event.log Diag.attached])

/-- The detach function `root_usb_driver_disconnect`, for the session stored as interface data. -/
def root_usb_driver_disconnect (ru_handler : root_usb) : List Event :=
  [Event.usb_set_intfdata none,
   Event.device_remove_file,
   Event.usb_put_dev,
   Event.usb_kill_urb ru_handler.int_in_urb,
   Event.usb_free_urb ru_handler.int_in_urb,
   Event.kfree ru_handler.int_in_buffer,
   Event.kfree (some Obj.ru_handler),
   Event.log Diag.detached]

/-- The release calls of a trace: everything that cancels, frees or drops a
reference. -/
def releases (evs : List Event) : List Event :=
  evs.filter (fun e => match e with
    | Event.usb_put_dev => true
    | Event.usb_kill_urb _ => true
    | Event.usb_free_urb _ => true
    | Event.kfree _ => true
    | _ => false)

/-- References on the device taken (`usb_get_dev`) and not yet dropped
(`usb_put_dev`) over a trace. -/
def dev_refs (evs : List Event) : Int :=
  evs.foldl (fun n e => match e with
    | Event.usb_get_dev => n + 1
    | Event.usb_put_dev => n - 1
    | _ => n) 0

/-- Objects allocated over a trace and not freed in it. -/
def live_objects (evs : List Event) : List Obj :=
  evs.foldl (fun live e => match e with
    | Event.kmalloc _ _ (some o) => o :: live
    | Event.kzalloc _ _ (some o) => o :: live
    | Event.usb_alloc_urb _ _ (some o) => o :: live
    | Event.kfree (some o) => live.erase o
    | Event.usb_free_urb (some o) => live.erase o
    | _ => live) []

/-- The transfers of a trace: control transfers and urb submissions. -/
def transfer_events (evs : List Event) : List Event :=
  evs.filter (fun e => match e with
    | Event.usb_control_msg _ _ _ _ _ _ _ _ => true
    | Event.usb_submit_urb _ _ => true
    | _ => false)

/-- The decimal ASCII rendering of an integer as the specification words it,
stated independently of the code with Mathlib's `Nat.digits`: a minus sign
(byte 45) for a negative value, then the decimal digits of the magnitude, most
significant first, each as the byte 48 + digit; zero is the single digit `0`. -/
def decimal_ascii (x : Int) : List Nat :=
  (if x < 0 then [45] else []) ++
    (if x = 0 then [48] else ((Nat.digits 10 x.natAbs).reverse.map (fun d => 48 + d)))

/-! ## Concrete inputs used below -/

/-- A fully created session whose last temperature is 7. -/
def session7 : root_usb :=
  { usb_dev := 1, ctx := 7, int_in_buffer := some Obj.int_in_buffer,
    int_in_urb := some Obj.int_in_urb }

/-- The frame of the end-to-end scenario: measurement0 = 0x0034. -/
def frame52 : List u8 := [3, 7, 0x34, 0, 0, 0, 0, 0, 0]

/-- A successful completion that delivered the whole 9-byte frame. -/
def urb_full : urb :=
  { self := some Obj.int_in_urb, context := session7, transfer_buffer := frame52,
    actual_length := 9, status := 0 }

/-- A successful completion that delivered only 4 bytes into the 9-byte buffer. -/
def urb_short : urb :=
  { self := some Obj.int_in_urb, context := session7, transfer_buffer := frame52,
    actual_length := 4, status := 0 }

/-- Outcome of a `send_cmd` whose allocation fails. -/
def cmd_alloc_fails : cmd_outcome := { pack_alloc := none, control_ret := 8 }

/-- Outcome of a `send_cmd` whose control transfer reports 0 bytes written. -/
def cmd_zero_written : cmd_outcome := { pack_alloc := some (fun _ => 0xAA), control_ret := 0 }

/-- Outcome of a `send_cmd` whose control transfer times out (`-ETIMEDOUT`). -/
def cmd_timeout : cmd_outcome := { pack_alloc := some (fun _ => 0xAA), control_ret := -110 }

/-- Outcomes of an `init_dev` in which both control transfers time out and the
submission fails with `-ENODEV`. -/
def init_all_fail : init_outcome :=
  { init_cmd := cmd_timeout, submit_ret := -19, start_cmd := cmd_timeout }

/-- An attach in which every allocation succeeds and the property file is
created. -/
def probe_ok : probe_input :=
  { usb_dev := 1, wMaxPacketSize := 9, kzalloc_ok := true, buffer_ok := true, urb_ok := true,
    init := init_all_fail, create_file_ret := 0 }

/-- An attach in which the allocation of the receive buffer fails. -/
def probe_no_buffer : probe_input := { probe_ok with buffer_ok := false }

/-- A completion with a transient error status (`-EPROTO`). -/
def urb_transient : urb :=
  { self := some Obj.int_in_urb, context := session7, transfer_buffer := frame52,
    actual_length := 0, status := -71 }

/-! ## Helper lemmas -/

lemma read_int_callback_success (u : urb) (submit_ret : Int) (b0 b1 b2 b3 : u8)
    (rest : List u8) (hs : u.status = 0)
    (hb : u.transfer_buffer = b0 :: b1 :: b2 :: b3 :: rest) :
    read_int_callback u submit_ret =
      some ({ u.context with ctx := (le16_to_cpu b2 b3 : Int) },
        Event.log (Diag.measurement b1 b2 b3) :: read_int_callback_exit u submit_ret) := by
  simp [read_int_callback, hs, hb, measurement_packet.rolling_counter,
    measurement_packet.measurement0]

lemma submit_count_exit (u : urb) (submit_ret : Int) :
    submit_count (read_int_callback_exit u submit_ret) = 1 := by
  unfold read_int_callback_exit submit_count
  by_cases h : submit_ret = 0 <;> simp [h]

lemma submit_count_log_cons (d : Diag) (evs : List Event) :
    submit_count (Event.log d :: evs) = submit_count evs := by
  simp [submit_count]

lemma list_four_le (l : List u8) (h : 4 ≤ l.length) :
    ∃ b0 b1 b2 b3 rest, l = b0 :: b1 :: b2 :: b3 :: rest := by
  match l, h with
  | b0 :: b1 :: b2 :: b3 :: rest, _ => exact ⟨b0, b1, b2, b3, rest, rfl⟩

lemma put_dec_eq_digits (fuel n : Nat) (h : n < fuel) :
    put_dec fuel n = if n = 0 then [0] else Nat.digits 10 n := by
  induction fuel generalizing n with
  | zero => omega
  | succ f ih =>
    unfold put_dec
    by_cases hn : n = 0
    · subst hn
      simp
    · have hpos : 0 < n := Nat.pos_of_ne_zero hn
      rw [if_neg hn, Nat.digits_def' (by norm_num) hpos]
      by_cases hq : n / 10 = 0
      · simp [hq]
      · have hlt : n / 10 < f := by omega
        rw [if_neg hq, ih _ hlt, if_neg hq]

lemma format_d_eq (x : Int) : format_d x = decimal_ascii x := by
  unfold format_d decimal_ascii
  rw [put_dec_eq_digits _ _ (Nat.lt_succ_self _)]
  by_cases hx : x = 0
  · subst hx
    simp
  · have : x.natAbs ≠ 0 := by simpa using hx
    simp [hx, this]

lemma show_temperature_of_ctx_52 (ru : root_usb) (h : ru.ctx = 52) :
    (show_temperature ru).1 = 3 ∧ (show_temperature ru).2.1 = [53, 50, 10, 0] := by
  simp only [show_temperature, sprintf_d_nl, h]
  constructor <;> decide

lemma to_size_t_eq_iff (sizeof_ptr : Nat) (r : Int)
    (hsz : sizeof_ptr = 4 ∨ sizeof_ptr = 8)
    (hr : -2147483648 ≤ r ∧ r < 2147483648) :
    to_size_t sizeof_ptr r = sizeof_ptr ↔ r = (sizeof_ptr : Int) := by
  unfold to_size_t
  rcases hsz with h | h <;> subst h <;> norm_num <;> omega

lemma pack_payload (sizeof_ptr : Nat) (junk : Nat → u8) (cmd : u8) (h : 0 < sizeof_ptr) :
    (memset_zero ((List.range sizeof_ptr).map junk) sizeof_ptr).set 0 cmd =
      cmd :: List.replicate (sizeof_ptr - 1) (0 : u8) := by
  obtain ⟨k, rfl⟩ : ∃ k, sizeof_ptr = k + 1 := ⟨sizeof_ptr - 1, by omega⟩
  simp [memset_zero, List.replicate_succ]

lemma send_cmd_session (sizeof_ptr : Nat) (ru : root_usb) (cmd : u8) (o : cmd_outcome) :
    (send_cmd sizeof_ptr ru cmd o).2.1 = ru := by
  unfold send_cmd
  cases o.pack_alloc <;> rfl

lemma submit_count_send_cmd (sizeof_ptr : Nat) (ru : root_usb) (cmd : u8) (o : cmd_outcome) :
    submit_count (send_cmd sizeof_ptr ru cmd o).2.2 = 0 := by
  unfold send_cmd
  cases o.pack_alloc <;> simp [submit_count]

lemma init_dev_trace (sizeof_ptr : Nat) (ru : root_usb) (o : init_outcome) :
    (init_dev sizeof_ptr ru o).2 =
      (send_cmd sizeof_ptr ru CMD_ID_INIT o.init_cmd).2.2 ++
      (Event.usb_submit_urb ru.int_in_urb gfp_t.GFP_KERNEL ::
        (if o.submit_ret ≠ 0 then [Event.log (Diag.submit_error_init_dev o.submit_ret)]
         else [])) ++
      (send_cmd sizeof_ptr ru CMD_ID_START_MEASUREMENTS o.start_cmd).2.2 := by
  simp only [init_dev, send_cmd_session]

lemma probe_ret_independent_of_init (sizeof_ptr : Nat) (i : probe_input) (o : init_outcome) :
    (root_usb_driver_probe sizeof_ptr { i with init := o }).1 =
      (root_usb_driver_probe sizeof_ptr i).1 := by
  unfold root_usb_driver_probe
  by_cases h1 : i.kzalloc_ok = true <;> by_cases h2 : i.buffer_ok = true <;>
    by_cases h3 : i.urb_ok = true <;> by_cases h4 : i.create_file_ret = 0 <;>
    simp [h1, h2, h3, h4, probe_error]

/-! ## The completion handler -/

/-- C1: for every receive buffer of at least 9 bytes, a completion with status 0
leaves `ctx` equal to byte 2 plus 256 times byte 3 of the buffer, whatever the
other bytes, the previous `ctx` and the result of the resubmission are; and for
the buffer `[03, 07, 0x34, 0x00, 00, 00, 00, 00, 00]` the value stored is 52,
which `show_temperature` then renders as the bytes of `52` and a newline. -/
theorem C1_success_stores_le16 (u : urb) (submit_ret : Int)
    (b0 b1 b2 b3 b4 b5 b6 b7 b8 : u8) (rest : List u8)
    (hs : u.status = 0)
    (hb : u.transfer_buffer = b0 :: b1 :: b2 :: b3 :: b4 :: b5 :: b6 :: b7 :: b8 :: rest) :
    (∃ ru evs, read_int_callback u submit_ret = some (ru, evs) ∧
      ru.ctx = (b2.val : Int) + 256 * (b3.val : Int)) ∧
    (∀ (self : ptr) (prev : root_usb) (n : Nat) (r : Int),
      ∃ ru evs,
        read_int_callback
          { self := self, context := prev, transfer_buffer := frame52,
            actual_length := n, status := 0 } r = some (ru, evs) ∧
        ru.ctx = 52 ∧ (show_temperature ru).1 = 3 ∧
        (show_temperature ru).2.1 = [53, 50, 10, 0]) := by
  constructor
  · refine ⟨_, _, read_int_callback_success u submit_ret b0 b1 b2 b3 _ hs hb, ?_⟩
    simp [le16_to_cpu]
  · intro self prev n r
    refine ⟨_, _, read_int_callback_success _ r 3 7 0x34 0 [0, 0, 0, 0, 0] rfl rfl, rfl, ?_⟩
    exact show_temperature_of_ctx_52 _ rfl

/-- Witness of C1 at the full 9-byte frame of the end-to-end scenario. -/
theorem C1_success_stores_le16_witness :
    urb_full.status = 0 ∧
    ∃ ru evs, read_int_callback urb_full 0 = some (ru, evs) ∧
      ru.ctx = (((0x34 : u8).val : Int)) + 256 * (((0 : u8).val : Int)) :=
  ⟨rfl, (C1_success_stores_le16 urb_full 0 3 7 0x34 0 0 0 0 0 0 [] rfl rfl).1⟩

/-- C2 fails as stated: a completion with status 0 that delivered 4 bytes (fewer
than 9) is decoded all the same; `ctx` was 7 before and is 52 afterwards. -/
theorem C2_short_transfer_counterexample :
    urb_short.status = 0 ∧ urb_short.actual_length < 9 ∧ urb_short.context.ctx = 7 ∧
    ∃ ru evs, read_int_callback urb_short 0 = some (ru, evs) ∧ ru.ctx = 52 ∧
      ru.ctx ≠ urb_short.context.ctx := by
  refine ⟨rfl, by decide, rfl, _, _,
    read_int_callback_success urb_short 0 3 7 0x34 0 [0, 0, 0, 0, 0] rfl rfl, ?_, ?_⟩
  · rfl
  · decide

/-- C2, amended: the handler never looks at the number of bytes transferred.  For
every completion with status 0 in which fewer than 9 bytes were transferred and
whose receive buffer holds at least 4 bytes, the handler returns, `ctx`
afterwards is byte 2 plus 256 times byte 3 of the buffer, and the result is the
same for every other transferred length. -/
theorem C2_short_transfer_still_decoded (u : urb) (submit_ret : Int)
    (b0 b1 b2 b3 : u8) (rest : List u8)
    (hs : u.status = 0) (hl : u.actual_length < 9)
    (hb : u.transfer_buffer = b0 :: b1 :: b2 :: b3 :: rest) :
    (∃ ru evs, read_int_callback u submit_ret = some (ru, evs) ∧
      ru.ctx = (b2.val : Int) + 256 * (b3.val : Int)) ∧
    (∀ n : Nat, read_int_callback { u with actual_length := n } submit_ret =
      read_int_callback u submit_ret) := by
  have _ := hl
  constructor
  · refine ⟨_, _, read_int_callback_success u submit_ret b0 b1 b2 b3 _ hs hb, ?_⟩
    simp [le16_to_cpu]
  · intro n
    rfl

/-- Witness of C2 (amended) at the 4-byte transfer. -/
theorem C2_short_transfer_still_decoded_witness :
    urb_short.status = 0 ∧ urb_short.actual_length < 9 ∧
    ∃ ru evs, read_int_callback urb_short 0 = some (ru, evs) ∧
      ru.ctx = (((0x34 : u8).val : Int)) + 256 * (((0 : u8).val : Int)) :=
  ⟨rfl, by decide,
    (C2_short_transfer_still_decoded urb_short 0 3 7 0x34 0 [0, 0, 0, 0, 0]
      rfl (by decide) rfl).1⟩

/-- C5: for every completion status the handler returns and calls
`usb_submit_urb` exactly once, except for `-ECONNRESET`, `-ENOENT` and
`-ESHUTDOWN`, for which it calls it not at all.  (With status 0 the handler
reads bytes 1 to 3 of the receive buffer, which must exist.) -/
theorem C5_resubmit_unless_terminal (u : urb) (submit_ret : Int)
    (hbuf : u.status = 0 → 4 ≤ u.transfer_buffer.length) :
    ∃ ru evs, read_int_callback u submit_ret = some (ru, evs) ∧
      submit_count evs =
        (if u.status = -ECONNRESET ∨ u.status = -ENOENT ∨ u.status = -ESHUTDOWN
         then 0 else 1) := by
  by_cases hs : u.status = 0
  · obtain ⟨b0, b1, b2, b3, rest, hb⟩ := list_four_le _ (hbuf hs)
    refine ⟨_, _, read_int_callback_success u submit_ret b0 b1 b2 b3 rest hs hb, ?_⟩
    rw [submit_count_log_cons, submit_count_exit]
    simp [hs, ECONNRESET, ENOENT, ESHUTDOWN]
  · by_cases ht : u.status = -ECONNRESET ∨ u.status = -ENOENT ∨ u.status = -ESHUTDOWN
    · refine ⟨u.context, [Event.log (Diag.urb_shutting_down u.status)], ?_, ?_⟩
      · simp [read_int_callback, hs, ht]
      · simp [submit_count, ht]
    · refine ⟨u.context, Event.log (Diag.urb_nonzero_status u.status) ::
          read_int_callback_exit u submit_ret, ?_, ?_⟩
      · simp only [read_int_callback, hs, ht, if_false]
      · rw [submit_count_log_cons, submit_count_exit]
        simp [ht]

/-- Witness of C5 at a transient error status: one resubmission. -/
theorem C5_resubmit_unless_terminal_witness :
    ∃ ru evs, read_int_callback urb_transient (-19) = some (ru, evs) ∧
      submit_count evs =
        (if urb_transient.status = -ECONNRESET ∨ urb_transient.status = -ENOENT ∨
            urb_transient.status = -ESHUTDOWN
         then 0 else 1) :=
  C5_resubmit_unless_terminal urb_transient (-19) (fun h => by simp [urb_transient] at h)

/-- C10: `send_cmd`, `init_dev` and `show_temperature` return the session they
were given, so `ctx` is unchanged; and for every non-zero status, terminal or
not, the completion handler returns the session it was given, whatever the
receive buffer holds (even an empty one). -/
theorem C10_ctx_changed_only_on_success (u : urb) (submit_ret : Int)
    (hs : u.status ≠ 0) :
    (∀ (sizeof_ptr : Nat) (ru : root_usb) (cmd : u8) (o : cmd_outcome),
      (send_cmd sizeof_ptr ru cmd o).2.1 = ru) ∧
    (∀ (sizeof_ptr : Nat) (ru : root_usb) (o : init_outcome),
      (init_dev sizeof_ptr ru o).1 = ru) ∧
    (∀ ru : root_usb, (show_temperature ru).2.2 = ru) ∧
    (∃ evs, read_int_callback u submit_ret = some (u.context, evs)) ∧
    (∀ ru evs, read_int_callback u submit_ret = some (ru, evs) → ru.ctx = u.context.ctx) := by
  have hsend : ∀ (sizeof_ptr : Nat) (ru : root_usb) (cmd : u8) (o : cmd_outcome),
      (send_cmd sizeof_ptr ru cmd o).2.1 = ru := by
    intro sizeof_ptr ru cmd o
    unfold send_cmd
    cases o.pack_alloc <;> rfl
  have hcb : ∃ evs, read_int_callback u submit_ret = some (u.context, evs) := by
    by_cases ht : u.status = -ECONNRESET ∨ u.status = -ENOENT ∨ u.status = -ESHUTDOWN
    · refine ⟨[Event.log (Diag.urb_shutting_down u.status)], ?_⟩
      simp only [read_int_callback, hs, ht, if_false, if_true]
    · refine ⟨Event.log (Diag.urb_nonzero_status u.status) ::
        read_int_callback_exit u submit_ret, ?_⟩
      simp only [read_int_callback, hs, ht, if_false]
  refine ⟨hsend, ?_, fun _ => rfl, hcb, ?_⟩
  · intro sizeof_ptr ru o
    simp only [init_dev, hsend]
  · intro ru evs h
    obtain ⟨evs0, h0⟩ := hcb
    rw [h0] at h
    simp only [Option.some.injEq, Prod.mk.injEq] at h
    rw [← h.1]

/-- Witness of C10 at a transient error status. -/
theorem C10_ctx_changed_only_on_success_witness :
    urb_transient.status ≠ 0 ∧
    ∃ evs, read_int_callback urb_transient 0 = some (urb_transient.context, evs) :=
  ⟨by decide, (C10_ctx_changed_only_on_success urb_transient 0 (by decide)).2.2.2.1⟩

/-! ## The property read callback -/

/-- C9: for every session, `show_temperature` stores into `buf` exactly the
decimal ASCII rendering of `ctx` followed by one newline (byte 10) and the
terminating NUL of `sprintf`, returns the number of bytes of that text (the NUL
not counted, as `sprintf` does), so that the first `ret` bytes of `buf` are the
rendering and the newline, and it returns the session unchanged.  For a
non-negative `ctx` the rendering consists of ASCII digits whose value in base 10
is `ctx`. -/
theorem C9_show_temperature_renders_ctx (ru : root_usb) :
    (show_temperature ru).2.1 = decimal_ascii ru.ctx ++ [10] ++ [0] ∧
    (show_temperature ru).1 = ((decimal_ascii ru.ctx ++ [10]).length : Int) ∧
    (show_temperature ru).2.1.take (show_temperature ru).1.toNat
      = decimal_ascii ru.ctx ++ [10] ∧
    (show_temperature ru).2.2 = ru ∧
    (∀ n : Nat, ru.ctx = (n : Int) →
      (∀ b ∈ decimal_ascii ru.ctx, 48 ≤ b ∧ b ≤ 57) ∧
      Nat.ofDigits 10 ((decimal_ascii ru.ctx).reverse.map (fun b => b - 48)) = n) := by
  have h1 : (show_temperature ru).2.1 = decimal_ascii ru.ctx ++ [10] ++ [0] := by
    simp only [show_temperature, sprintf_d_nl, format_d_eq]
  have h2 : (show_temperature ru).1 = ((decimal_ascii ru.ctx ++ [10]).length : Int) := by
    simp only [show_temperature, sprintf_d_nl, format_d_eq]
  refine ⟨h1, h2, ?_, rfl, ?_⟩
  · rw [h1, h2, Int.toNat_ofNat, List.take_left]
  · intro n hn
    rw [hn]
    by_cases h0 : n = 0
    · subst h0
      simp [decimal_ascii]
    · have hne : ((n : Int) = 0) = False := by simp [h0]
      have hlt : (((n : Int) < 0) = False) := by simp
      simp only [decimal_ascii, hne, hlt, if_false, List.nil_append, Int.natAbs_ofNat]
      constructor
      · intro b hb
        simp only [List.mem_map, List.mem_reverse] at hb
        obtain ⟨d, hd, rfl⟩ := hb
        have := Nat.digits_lt_base (by norm_num : 1 < 10) hd
        omega
      · rw [← List.map_reverse, List.reverse_reverse, List.map_map]
        have : ((fun b => b - 48) ∘ fun d => 48 + d) = (id : Nat → Nat) := by
          funext d
          simp
        rw [this, List.map_id, Nat.ofDigits_digits]

/-! ## The command channel -/

/-- C4 fails as stated: when the control transfer reports that 0 bytes were
written (not the 8 requested), `send_cmd` returns 0, its success value. -/
theorem C4_zero_write_counterexample :
    cmd_zero_written.control_ret = 0 ∧ cmd_zero_written.control_ret ≠ 8 ∧
    (send_cmd 8 session7 CMD_ID_INIT cmd_zero_written).1 = 0 := by
  refine ⟨rfl, by decide, ?_⟩
  simp [send_cmd, cmd_zero_written, to_size_t]

/-- C4, amended: for every command and every `int` result `r` of the control
transfer (the frame having been allocated), `send_cmd` returns 0 when `r` is
the byte count it requested, `sizeof(pack)`, and returns `r` itself otherwise.
So it returns 0 exactly when `r` is the requested count or `r` is 0, and every
non-zero result other than the requested count (a short write, a negative
error code) comes back unchanged and non-zero. -/
theorem C4_send_cmd_result (sizeof_ptr : Nat) (ru : root_usb) (cmd : u8)
    (junk : Nat → u8) (r : Int)
    (hsz : sizeof_ptr = 4 ∨ sizeof_ptr = 8)
    (hr : -2147483648 ≤ r ∧ r < 2147483648) :
    (send_cmd sizeof_ptr ru cmd { pack_alloc := some junk, control_ret := r }).1
      = (if r = (sizeof_ptr : Int) then 0 else r) ∧
    ((send_cmd sizeof_ptr ru cmd { pack_alloc := some junk, control_ret := r }).1 = 0
      ↔ (r = (sizeof_ptr : Int) ∨ r = 0)) ∧
    (r ≠ (sizeof_ptr : Int) → r ≠ 0 →
      (send_cmd sizeof_ptr ru cmd { pack_alloc := some junk, control_ret := r }).1 = r ∧
      (send_cmd sizeof_ptr ru cmd { pack_alloc := some junk, control_ret := r }).1 ≠ 0) := by
  have h := to_size_t_eq_iff sizeof_ptr r hsz hr
  have hret : (send_cmd sizeof_ptr ru cmd { pack_alloc := some junk, control_ret := r }).1
      = (if r = (sizeof_ptr : Int) then 0 else r) := by
    by_cases hc : r = (sizeof_ptr : Int)
    · have hp : to_size_t sizeof_ptr r = sizeof_ptr := h.mpr hc
      simp only [send_cmd]
      rw [if_pos hp, if_pos hc]
    · have hn : ¬ to_size_t sizeof_ptr r = sizeof_ptr := fun hh => hc (h.mp hh)
      simp only [send_cmd]
      rw [if_neg hn, if_neg hc]
  refine ⟨hret, ?_, ?_⟩
  · rw [hret]
    by_cases hc : r = (sizeof_ptr : Int)
    · simp [hc]
    · simp [hc]
  · intro hc h0
    rw [hret, if_neg hc]
    exact ⟨rfl, h0⟩

/-- Witness of C4 (amended) at a timed-out transfer on a 64-bit target. -/
theorem C4_send_cmd_result_witness :
    (send_cmd 8 session7 CMD_ID_INIT { pack_alloc := some (fun _ => 0xAA), control_ret := -110 }).1
      = (if (-110 : Int) = ((8 : Nat) : Int) then 0 else -110) :=
  (C4_send_cmd_result 8 session7 CMD_ID_INIT (fun _ => 0xAA) (-110) (Or.inr rfl)
    (by decide)).1

/-- C7 fails as stated: when the allocation of the frame fails, `send_cmd`
returns `-ENOMEM` and issues no control transfer at all. -/
theorem C7_alloc_failure_counterexample :
    control_msgs (send_cmd 8 session7 CMD_ID_INIT cmd_alloc_fails).2.2 = [] ∧
    (send_cmd 8 session7 CMD_ID_INIT cmd_alloc_fails).1 = -12 := by
  constructor <;> rfl

/-- C7, amended: for every command id, when the frame is allocated and
`sizeof(pack)` is 8 (a target with 8-byte pointers), `send_cmd` issues exactly
one control transfer, to endpoint 0, with bRequest 0x09, bmRequestType 0x21,
wValue 0x0200, wIndex 0x0000, size 8 and timeout 10000, whose payload is the
command id followed by 7 zero bytes, whatever the new block held; when the
allocation fails it issues none and returns `-ENOMEM`. -/
theorem C7_send_cmd_wire_format (ru : root_usb) (cmd : u8) (junk : Nat → u8) (r : Int) :
    control_msgs (send_cmd 8 ru cmd { pack_alloc := some junk, control_ret := r }).2.2
      = [Event.usb_control_msg 0 0x09 0x21 0x0200 0x0000 [cmd, 0, 0, 0, 0, 0, 0, 0] 8 10000] ∧
    send_cmd 8 ru cmd { pack_alloc := none, control_ret := r }
      = (-ENOMEM, ru, [Event.kmalloc 8 gfp_t.GFP_KERNEL none]) := by
  constructor
  · simp only [send_cmd, pack_payload 8 junk cmd (by decide)]
    rfl
  · rfl

/-! ## Initialisation and attach -/

/-- C6: for every outcome of the two `send_cmd` calls and of the submission,
`init_dev` returns; its kernel calls are those of `send_cmd(CMD_ID_INIT)`, then
one `usb_submit_urb` (with a diagnostic when it fails), then those of
`send_cmd(CMD_ID_START_MEASUREMENTS)`; it calls `usb_submit_urb` exactly once
and leaves the session as it was.  When both frames are allocated its transfers
are, in order, the control transfer carrying 0x1a, the submission, the control
transfer carrying 0x18.  The value `root_usb_driver_probe` returns does not
depend on any of these outcomes, and is 0 when its allocations succeed and the
property file is created. -/
theorem C6_init_dev_permissive (sizeof_ptr : Nat) (ru : root_usb) (o : init_outcome)
    (i : probe_input) :
    (init_dev sizeof_ptr ru o).2 =
      (send_cmd sizeof_ptr ru CMD_ID_INIT o.init_cmd).2.2 ++
      (Event.usb_submit_urb ru.int_in_urb gfp_t.GFP_KERNEL ::
        (if o.submit_ret ≠ 0 then [Event.log (Diag.submit_error_init_dev o.submit_ret)]
         else [])) ++
      (send_cmd sizeof_ptr ru CMD_ID_START_MEASUREMENTS o.start_cmd).2.2 ∧
    submit_count (init_dev sizeof_ptr ru o).2 = 1 ∧
    (init_dev sizeof_ptr ru o).1 = ru ∧
    (0 < sizeof_ptr → ∀ (j1 j2 : Nat → u8) (r1 r2 s : Int),
      transfer_events (init_dev sizeof_ptr ru
          { init_cmd := { pack_alloc := some j1, control_ret := r1 }, submit_ret := s,
            start_cmd := { pack_alloc := some j2, control_ret := r2 } }).2 =
        [Event.usb_control_msg 0 0x09 0x21 0x0200 0x0000
           ((0x1a : u8) :: List.replicate (sizeof_ptr - 1) 0) sizeof_ptr 10000,
         Event.usb_submit_urb ru.int_in_urb gfp_t.GFP_KERNEL,
         Event.usb_control_msg 0 0x09 0x21 0x0200 0x0000
           ((0x18 : u8) :: List.replicate (sizeof_ptr - 1) 0) sizeof_ptr 10000]) ∧
    (root_usb_driver_probe sizeof_ptr { i with init := o }).1 =
      (root_usb_driver_probe sizeof_ptr i).1 ∧
    (i.kzalloc_ok = true → i.buffer_ok = true → i.urb_ok = true → i.create_file_ret = 0 →
      (root_usb_driver_probe sizeof_ptr { i with init := o }).1 = 0) := by
  refine ⟨init_dev_trace sizeof_ptr ru o, ?_, ?_, ?_,
    probe_ret_independent_of_init sizeof_ptr i o, ?_⟩
  · rw [init_dev_trace]
    unfold submit_count
    rw [List.filter_append, List.filter_append, List.length_append, List.length_append]
    have h1 := submit_count_send_cmd sizeof_ptr ru CMD_ID_INIT o.init_cmd
    have h2 := submit_count_send_cmd sizeof_ptr ru CMD_ID_START_MEASUREMENTS o.start_cmd
    unfold submit_count at h1 h2
    rw [h1, h2]
    by_cases hs : o.submit_ret = 0 <;> simp [hs]
  · simp only [init_dev, send_cmd_session]
  · intro hsz j1 j2 r1 r2 s
    rw [init_dev_trace]
    simp only [send_cmd, pack_payload sizeof_ptr _ _ hsz, CMD_ID_INIT,
      CMD_ID_START_MEASUREMENTS]
    by_cases hs : s = 0 <;> simp [transfer_events, hs]
  · intro h1 h2 h3 h4
    unfold root_usb_driver_probe
    simp [h1, h2, h3, h4]

/-- Witness of C6: both control transfers time out and the submission fails, on
a 64-bit target; the attach still returns 0. -/
theorem C6_init_dev_permissive_witness :
    submit_count (init_dev 8 session7 init_all_fail).2 = 1 ∧
    (root_usb_driver_probe 8 { probe_ok with init := init_all_fail }).1 = 0 :=
  ⟨(C6_init_dev_permissive 8 session7 init_all_fail probe_ok).2.1,
   (C6_init_dev_permissive 8 session7 init_all_fail probe_ok).2.2.2.2.2
     rfl rfl rfl rfl⟩

/-- C8, the code at the failing inputs: when the session object is allocated
and the allocation of the receive buffer, or of the urb, fails,
`root_usb_driver_probe` returns `-ENOMEM` and frees every object it allocated,
but it never calls `usb_put_dev`: the reference taken with `usb_get_dev` is
still held when it returns. -/
theorem C8_probe_error_path_keeps_device_reference (sizeof_ptr dev w : Nat)
    (init : init_outcome) (c : Int) (urb_ok : Bool) :
    (root_usb_driver_probe sizeof_ptr
        { usb_dev := dev, wMaxPacketSize := w, kzalloc_ok := true, buffer_ok := false,
          urb_ok := urb_ok, init := init, create_file_ret := c }).1 = -ENOMEM ∧
    live_objects (root_usb_driver_probe sizeof_ptr
        { usb_dev := dev, wMaxPacketSize := w, kzalloc_ok := true, buffer_ok := false,
          urb_ok := urb_ok, init := init, create_file_ret := c }).2.2 = [] ∧
    dev_refs (root_usb_driver_probe sizeof_ptr
        { usb_dev := dev, wMaxPacketSize := w, kzalloc_ok := true, buffer_ok := false,
          urb_ok := urb_ok, init := init, create_file_ret := c }).2.2 = 1 ∧
    (root_usb_driver_probe sizeof_ptr
        { usb_dev := dev, wMaxPacketSize := w, kzalloc_ok := true, buffer_ok := true,
          urb_ok := false, init := init, create_file_ret := c }).1 = -ENOMEM ∧
    live_objects (root_usb_driver_probe sizeof_ptr
        { usb_dev := dev, wMaxPacketSize := w, kzalloc_ok := true, buffer_ok := true,
          urb_ok := false, init := init, create_file_ret := c }).2.2 = [] ∧
    dev_refs (root_usb_driver_probe sizeof_ptr
        { usb_dev := dev, wMaxPacketSize := w, kzalloc_ok := true, buffer_ok := true,
          urb_ok := false, init := init, create_file_ret := c }).2.2 = 1 ∧
    dev_refs (root_usb_driver_probe 8 probe_no_buffer).2.2 = 1 ∧
    Event.usb_put_dev ∉ (root_usb_driver_probe 8 probe_no_buffer).2.2 := by
  refine ⟨?_, ?_, ?_, ?_, ?_, ?_, ?_, ?_⟩
  · simp [root_usb_driver_probe, probe_error]
  · simp [root_usb_driver_probe, probe_error, live_objects]
  · simp [root_usb_driver_probe, probe_error, dev_refs]
  · simp [root_usb_driver_probe, probe_error]
  · simp [root_usb_driver_probe, probe_error, live_objects]
  · simp [root_usb_driver_probe, probe_error, dev_refs]
  · simp [root_usb_driver_probe, probe_error, dev_refs, probe_no_buffer, probe_ok]
  · simp [root_usb_driver_probe, probe_error, probe_no_buffer, probe_ok]

/-! ## Detach -/

/-- C3 fails as stated: in `root_usb_driver_disconnect` the reference on the
device is dropped (`usb_put_dev`) before the urb is cancelled (`usb_kill_urb`):
it is the third kernel call, the cancellation the fourth. -/
theorem C3_put_dev_before_kill_counterexample :
    (root_usb_driver_disconnect session7).indexOf Event.usb_put_dev = 2 ∧
    (root_usb_driver_disconnect session7).indexOf
      (Event.usb_kill_urb (some Obj.int_in_urb)) = 3 ∧
    (root_usb_driver_disconnect session7).indexOf Event.usb_put_dev <
      (root_usb_driver_disconnect session7).indexOf
        (Event.usb_kill_urb (some Obj.int_in_urb)) := by
  refine ⟨?_, ?_, ?_⟩ <;> decide

/-- C3, amended: for every session, `root_usb_driver_disconnect` performs its
releases in the order: drop the reference on the device, cancel and await the
urb, free the urb, free the receive buffer, free the session object.  The
receive buffer is freed after the cancellation; the reference on the device is
dropped before it. -/
theorem C3_disconnect_release_order (ru : root_usb) :
    releases (root_usb_driver_disconnect ru) =
      [Event.usb_put_dev,
       Event.usb_kill_urb ru.int_in_urb,
       Event.usb_free_urb ru.int_in_urb,
       Event.kfree ru.int_in_buffer,
       Event.kfree (some Obj.ru_handler)] ∧
    dev_refs (root_usb_driver_disconnect ru) = -1 := by
  constructor
  · simp [releases, root_usb_driver_disconnect]
  · simp [dev_refs, root_usb_driver_disconnect]

end RootUsb
